import Mathlib

/-!
Shallow embedding of the campaign dispatch and open-tracking engine of the
Gmail server backend (src/services/emailService.js and
src/controllers/emailController.js), together with theorems checking the
natural-language specification against it.

The database (SQLite, tables `emails`, `email_events`, `email_campaigns`)
is modelled as in-memory lists; SQL INSERT is list append, SQL UPDATE is a
map over the rows, and `CURRENT_TIMESTAMP` is a logical clock passed in as
a natural number.  The external mail transport and the persistence layer's
success or failure are environment parameters.
-/

namespace GmailServer

/-- Status column of an `emails` row (schema default 'sent'; the service
writes 'delivered' on save and 'opened' on a tracked open). -/
inductive EmailStatus where
  | sent
  | delivered
  | opened
  | failed
deriving DecidableEq, Repr

/-- Status column of an `email_campaigns` row. -/
inductive CampaignStatus where
  | draft
  | in_progress
  | completed
deriving DecidableEq, Repr

/-- A row of the `emails` table (the columns the service reads or writes). -/
structure EmailRecord where
  messageId : String
  sender : String
  recipient : String
  subject : String
  trackingId : Option String
  status : EmailStatus
  templateId : Option String
  campaignId : Option String
  openedAt : Option Nat
deriving DecidableEq, Repr

/-- A row of the append-only `email_events` table. -/
structure EmailEvent where
  trackingId : String
  eventType : String
  ipAddress : String
  userAgent : String
deriving DecidableEq, Repr

/-- A row of the `email_campaigns` table. -/
structure Campaign where
  id : String
  name : String
  sender : String
  status : CampaignStatus
  totalRecipients : Nat
  sentCount : Nat
  failedCount : Nat
  completedAt : Option Nat
deriving DecidableEq, Repr

/-- The persistent store: the three tables the engine touches. -/
structure DBState where
  emails : List EmailRecord
  events : List EmailEvent
  campaigns : List Campaign
deriving DecidableEq, Repr

/-- The empty database, the initial state of the system. -/
def initState : DBState := { emails := [], events := [], campaigns := [] }

/-- The per-row effect of `UPDATE emails SET status='opened',
opened_at=now WHERE tracking_id = ? AND status='delivered'`: the
compare-and-set on status. -/
def openRow (trackingId : String) (now : Nat) (e : EmailRecord) : EmailRecord :=
  if e.trackingId = some trackingId ∧ e.status = EmailStatus.delivered then
    { e with status := EmailStatus.opened, openedAt := some now }
  else e

/-- `updateEmailTracking(trackingId, ipAddress, userAgent)`: unconditionally
INSERT an open event into `email_events`, then apply the guarded UPDATE to
every `emails` row.  Returns `true` (the catch branch is only reachable on
a database fault, which is not modelled). -/
def updateEmailTracking (st : DBState) (trackingId ipAddress userAgent : String)
    (now : Nat) : DBState × Bool :=
  let st1 := { st with
    events := st.events ++ [({ trackingId := trackingId, eventType := "open",
                               ipAddress := ipAddress, userAgent := userAgent } : EmailEvent)] }
  let st2 := { st1 with emails := st1.emails.map (openRow trackingId now) }
  (st2, true)

/-- The fixed base64 payload of the 1x1 transparent GIF served by the
tracking endpoint. -/
def trackingPixelB64 : String :=
  "R0lGODlhAQABAIAAAAAAAP///yH5BAEAAAAALAAAAAABAAEAAAIBRAA7"

/-- `GET /api/email/track/:trackingId` (controller `trackEmailOpen`): call
`updateEmailTracking`, ignore its outcome, and always answer 200 with the
fixed 1x1 transparent GIF. -/
def trackEmailOpen (st : DBState) (trackingId ipAddress userAgent : String)
    (now : Nat) : DBState × Nat × String :=
  let r := updateEmailTracking st trackingId ipAddress userAgent now
  (r.1, 200, trackingPixelB64)

/-- Whitespace trimming of a placeholder's inner text, the model of
JavaScript's `String.prototype.trim()`. -/
def trimChars (cs : List Char) : List Char :=
  ((cs.dropWhile Char.isWhitespace).reverse.dropWhile Char.isWhitespace).reverse

/-- The character scanner behind `replacePlaceholders`, implementing the
semantics of `content.replace(/\x7b\x7b([^\x7d]+)\x7d\x7d/g, ...)`: at each
position, two opening braces followed by a nonempty run of non-closing-brace
characters and two closing braces form a placeholder; the trimmed inner text
is looked up in the recipient data, a hit is replaced by its value and a
miss keeps the matched text verbatim.  Recursion is on a fuel argument; one
unit of fuel is spent per scanned position, so `fuel = cs.length` always
suffices. -/
def substFuel (data : List (String × String)) : Nat → List Char → List Char
  | 0, cs => cs
  | _ + 1, [] => []
  | fuel + 1, c :: cs =>
    if c = '{' ∧ cs.head? = some '{' then
      let rest := cs.tail
      let inner := rest.takeWhile (fun x => x ≠ '}')
      let after := rest.drop inner.length
      if inner ≠ [] ∧ after.head? = some '}' ∧ after.tail.head? = some '}' then
        (match List.lookup (String.mk (trimChars inner)) data with
         | some v => v.data
         | none => '{' :: '{' :: (inner ++ ['}', '}'])) ++
          substFuel data fuel after.tail.tail
      else c :: substFuel data fuel cs
    else c :: substFuel data fuel cs

/-- `replacePlaceholders(content, recipientData)`: replace every
`\x7b\x7bkey\x7d\x7d` placeholder by the recipient's value for the trimmed
key, leaving the placeholder verbatim when the key is absent. -/
def replacePlaceholders (content : String) (recipientData : List (String × String)) :
    String :=
  String.mk (substFuel recipientData content.data.length content.data)

/-- The credential fields the send path reads (`credentials.email` is the
fallback sender and the campaign's sender column). -/
structure Credentials where
  email : String
  clientId : String
  clientSecret : String
  refreshToken : String
deriving DecidableEq, Repr

/-- What `transporter.sendMail` resolves to on success. -/
structure SendInfo where
  messageId : String
  envelope : String
  response : String
deriving DecidableEq, Repr

/-- The `emailOptions` argument of `sendEmail`.  `Option` models absent
(undefined) JavaScript fields; `enableTracking = some false` is the one
value that disables tracking (`enableTracking !== false`). -/
structure EmailOptions where
  toAddr : String
  cc : Option String
  bcc : Option String
  subject : String
  text : Option String
  html : Option String
  attachments : Option String
  enableTracking : Option Bool
  templateId : Option String
  campaignId : Option String
  fromAddr : Option String
deriving DecidableEq, Repr

/-- The object `sendEmail` resolves to on success. -/
structure SendResult where
  messageId : String
  trackingId : Option String
  envelope : String
  response : String
deriving DecidableEq, Repr

/-- JavaScript truthiness of an optional string: defined and nonempty. -/
def strTruthy : Option String → Bool
  | some s => !s.isEmpty
  | none => false

/-- JavaScript `a || b` for an optional string `a` and a string `b`. -/
def orElseStr (a : Option String) (b : String) : String :=
  match a with
  | some s => if s.isEmpty then b else s
  | none => b

/-- `text.replace(/\n/g, '<br>')`. -/
def newlineToBr (s : String) : String :=
  String.mk (s.data.foldr
    (fun c acc => if c = '\n' then '<' :: 'b' :: 'r' :: '>' :: acc else c :: acc) [])

/-- The `<img>` markup produced by `generateTrackingPixel` for a tracking
id (the module writes a throwaway pixel file as well, a filesystem side
effect that nothing reads back and that is not modelled). -/
def trackingPixelHtml (apiUrl trackingId : String) : String :=
  "<img src=\"" ++ apiUrl ++ "/api/email/track/" ++ trackingId ++
    "\" width=\"1\" height=\"1\" />"

/-- The tracking part of `sendEmail`: when `enableTracking !== false`, mint
a tracking id and append the pixel markup to the HTML body, synthesizing an
HTML body from the text body (newlines become `<br>`, wrapped in a `<div>`)
when no HTML body is present; otherwise keep the HTML body as is and no
tracking id.  Returns `(trackingId, htmlContent)`. -/
def computeTracking (o : EmailOptions) (newTid : String) (apiUrl : String) :
    Option String × String :=
  let htmlContent := (o.html).getD ""
  if o.enableTracking ≠ some false then
    let pixel := trackingPixelHtml apiUrl newTid
    let h :=
      if !htmlContent.isEmpty then htmlContent ++ pixel
      else if strTruthy o.text then
        "<div>" ++ newlineToBr ((o.text).getD "") ++ "</div>" ++ pixel
      else pixel
    (some newTid, h)
  else (none, htmlContent)

/-- `saveEmailToDB(emailDetails)`: INSERT the row into `emails`; a
persistence failure (`saveOk = false`) is caught and swallowed, leaving the
store untouched. -/
def saveEmailToDB (st : DBState) (row : EmailRecord) (saveOk : Bool) : DBState :=
  if saveOk then { st with emails := st.emails ++ [row] } else st

/-- `sendEmail(credentials, emailOptions)`.  `attempt` is the environment's
verdict for this delivery (transporter creation plus `sendMail`): `.ok info`
on delivery, `.error m` when the transport throws.  `newTid` is the tracking
id the uuid generator would mint for this call.  On delivery with tracking
on, a `delivered` row is persisted best-effort; the function then resolves
to the message id, tracking id, envelope and response.  A transport error
is rethrown as `Failed to send email: ...`. -/
def sendEmail (attempt : Except String SendInfo) (saveOk : Bool) (apiUrl : String)
    (credentials : Credentials) (o : EmailOptions) (newTid : String)
    (st : DBState) : Except String (SendResult × DBState) :=
  let tr := computeTracking o newTid apiUrl
  let mailFrom := orElseStr o.fromAddr credentials.email
  match attempt with
  | .error msg => .error ("Failed to send email: " ++ msg)
  | .ok info =>
    let st1 :=
      match tr.1 with
      | some tid =>
        saveEmailToDB st
          { messageId := info.messageId, sender := mailFrom, recipient := o.toAddr,
            subject := o.subject, trackingId := some tid,
            status := EmailStatus.delivered, templateId := o.templateId,
            campaignId := o.campaignId, openedAt := none } saveOk
      | none => st
    .ok ({ messageId := info.messageId, trackingId := tr.1,
           envelope := info.envelope, response := info.response }, st1)

/-- A recipient: the arbitrary string-to-string mapping handed to the bulk
dispatcher, carrying the destination address under the key `email`. -/
abbrev Recipient := List (String × String)

/-- `recipient.email`. -/
def recipientEmail (r : Recipient) : String := (List.lookup "email" r).getD ""

/-- The `emailTemplate` argument of `sendBulkEmails`. -/
structure BulkTemplate where
  subject : String
  text : Option String
  html : Option String
  attachments : Option String
  enableTracking : Option Bool
  templateId : Option String
deriving DecidableEq, Repr

/-- The per-recipient `emailOptions` the bulk loop builds: subject, text and
html personalized through `replacePlaceholders` (text and html only when
truthy, as in `emailTemplate.text ? ... : null`). -/
def bulkOptions (tmpl : BulkTemplate) (r : Recipient) (campaignId : Option String) :
    EmailOptions :=
  { toAddr := recipientEmail r,
    cc := none, bcc := none,
    subject := replacePlaceholders tmpl.subject r,
    text := if strTruthy tmpl.text then some (replacePlaceholders ((tmpl.text).getD "") r)
            else none,
    html := if strTruthy tmpl.html then some (replacePlaceholders ((tmpl.html).getD "") r)
            else none,
    attachments := tmpl.attachments,
    enableTracking := tmpl.enableTracking,
    templateId := tmpl.templateId,
    campaignId := campaignId,
    fromAddr := none }

/-- An element of `results.successful`. -/
structure SuccessEntry where
  email : String
  messageId : String
  trackingId : Option String
deriving DecidableEq, Repr

/-- An element of `results.failed`. -/
structure FailEntry where
  email : String
  error : String
deriving DecidableEq, Repr

/-- What `sendBulkEmails` resolves to. -/
structure BulkResult where
  totalSent : Nat
  totalFailed : Nat
  successfulRecipients : List SuccessEntry
  failedRecipients : List FailEntry
deriving DecidableEq, Repr

/-- The `for (const recipient of recipients)` loop of `sendBulkEmails`:
process each recipient in order; a resolved `sendEmail` appends to
`successful`, a rejected one is caught and appends `(email, error)` to
`failed` and the loop continues with the next recipient.  `trans` gives the
transport's verdict per destination address, `saveOk` the bookkeeping
insert's fate per destination address, and `mkTid k` the tracking id minted
at loop position `k`. -/
def bulkLoop (trans : String → Except String SendInfo) (saveOk : String → Bool)
    (mkTid : Nat → String) (apiUrl : String) (credentials : Credentials)
    (tmpl : BulkTemplate) (campaignId : Option String) :
    List Recipient → List SuccessEntry → List FailEntry → DBState → Nat →
    List SuccessEntry × List FailEntry × DBState
  | [], succ, failed, st, _ => (succ, failed, st)
  | r :: rs, succ, failed, st, k =>
    match sendEmail (trans (recipientEmail r)) (saveOk (recipientEmail r)) apiUrl
        credentials (bulkOptions tmpl r campaignId) (mkTid k) st with
    | .ok (res, st') =>
      bulkLoop trans saveOk mkTid apiUrl credentials tmpl campaignId rs
        (succ ++ [{ email := recipientEmail r, messageId := res.messageId,
                    trackingId := res.trackingId }]) failed st' (k + 1)
    | .error msg =>
      bulkLoop trans saveOk mkTid apiUrl credentials tmpl campaignId rs
        succ (failed ++ [{ email := recipientEmail r, error := msg }]) st (k + 1)

/-- The campaign row INSERTed at the start of a bulk dispatch with a
campaign id: `in_progress`, named after the template subject, counts at
their schema defaults of zero. -/
def freshCampaign (credentials : Credentials) (tmpl : BulkTemplate)
    (recipients : List Recipient) (cid : String) : Campaign :=
  { id := cid, name := tmpl.subject, sender := credentials.email,
    status := CampaignStatus.in_progress,
    totalRecipients := recipients.length, sentCount := 0,
    failedCount := 0, completedAt := none }

/-- The terminal UPDATE of a bulk dispatch: every campaign row with the
given id becomes `completed` with the batch's sent and failed counts and
`completed_at` set. -/
def campaignClose (cid : String) (sent failedCnt now : Nat) (st : DBState) :
    DBState :=
  { st with campaigns := st.campaigns.map (fun c =>
      if c.id = cid then
        { c with status := CampaignStatus.completed,
                 sentCount := sent, failedCount := failedCnt,
                 completedAt := some now }
      else c) }

/-- `sendBulkEmails(credentials, recipients, emailTemplate, campaignId)`.
With a campaign id, first INSERT an `in_progress` campaign row named after
the template subject with `total_recipients = recipients.length` (the
database rejects a duplicate primary key, which rejects the whole call
before any send); then run the per-recipient loop; finally UPDATE the
campaign row to `completed` with `sent_count`/`failed_count` set to the two
list lengths and `completed_at` to the clock. -/
def sendBulkEmails (trans : String → Except String SendInfo)
    (saveOk : String → Bool) (mkTid : Nat → String) (apiUrl : String)
    (credentials : Credentials) (recipients : List Recipient)
    (tmpl : BulkTemplate) (campaignId : Option String) (st : DBState)
    (now : Nat) : Except String (BulkResult × DBState) :=
  match campaignId with
  | some cid =>
    if st.campaigns.any (fun c => c.id = cid) then
      .error "UNIQUE constraint failed: email_campaigns.id"
    else
      let st0 := { st with
        campaigns := st.campaigns ++ [freshCampaign credentials tmpl recipients cid] }
      let out := bulkLoop trans saveOk mkTid apiUrl credentials tmpl (some cid)
        recipients [] [] st0 0
      .ok ({ totalSent := out.1.length, totalFailed := out.2.1.length,
             successfulRecipients := out.1, failedRecipients := out.2.1 },
           campaignClose cid out.1.length out.2.1.length now out.2.2)
  | none =>
    let out := bulkLoop trans saveOk mkTid apiUrl credentials tmpl none
      recipients [] [] st 0
    .ok ({ totalSent := out.1.length, totalFailed := out.2.1.length,
           successfulRecipients := out.1, failedRecipients := out.2.1 }, out.2.2)

/-- The aggregate part of `getCampaignStats`: campaign row plus per-status
counts of the campaign's `emails` rows. -/
structure CampaignStatsObj where
  campaign : Campaign
  deliveredCount : Nat
  openedCount : Nat
  failedCount : Nat
deriving DecidableEq, Repr

/-- `getCampaignStats(campaignId)`: `Campaign not found` when no campaign
row matches, else the campaign row with the `delivered`/`opened`/`failed`
counts of its email rows (grouping `emails` by status). -/
def getCampaignStats (st : DBState) (campaignId : String) :
    Except String CampaignStatsObj :=
  match st.campaigns.find? (fun c => c.id = campaignId) with
  | none => .error "Campaign not found"
  | some c =>
    let inCampaign := st.emails.filter (fun e => e.campaignId = some campaignId)
    .ok { campaign := c,
          deliveredCount := (inCampaign.filter
            (fun e => e.status = EmailStatus.delivered)).length,
          openedCount := (inCampaign.filter
            (fun e => e.status = EmailStatus.opened)).length,
          failedCount := (inCampaign.filter
            (fun e => e.status = EmailStatus.failed)).length }

/-- One observable state change of the engine: a tracked open, a resolved
single send, or a resolved bulk dispatch. -/
inductive Step : DBState → DBState → Prop where
  | track (st : DBState) (trackingId ipAddress userAgent : String) (now : Nat) :
      Step st (updateEmailTracking st trackingId ipAddress userAgent now).1
  | single (attempt : Except String SendInfo) (saveOk : Bool) (apiUrl : String)
      (credentials : Credentials) (o : EmailOptions) (newTid : String)
      (st : DBState) (res : SendResult) (st' : DBState) :
      sendEmail attempt saveOk apiUrl credentials o newTid st = .ok (res, st') →
      Step st st'
  | bulk (trans : String → Except String SendInfo) (saveOk : String → Bool)
      (mkTid : Nat → String) (apiUrl : String) (credentials : Credentials)
      (recipients : List Recipient) (tmpl : BulkTemplate)
      (campaignId : Option String) (st : DBState) (now : Nat)
      (res : BulkResult) (st' : DBState) :
      sendBulkEmails trans saveOk mkTid apiUrl credentials recipients tmpl
        campaignId st now = .ok (res, st') →
      Step st st'

/-- States reachable from the empty store through the engine's operations. -/
def Reachable (st : DBState) : Prop := Relation.ReflTransGen Step initState st

/-! ### Basic facts about `updateEmailTracking` -/

lemma updateEmailTracking_emails (st : DBState) (t ip ua : String) (now : Nat) :
    (updateEmailTracking st t ip ua now).1.emails = st.emails.map (openRow t now) := rfl

lemma updateEmailTracking_events (st : DBState) (t ip ua : String) (now : Nat) :
    (updateEmailTracking st t ip ua now).1.events =
      st.events ++ [({ trackingId := t, eventType := "open", ipAddress := ip,
                       userAgent := ua } : EmailEvent)] := rfl

lemma updateEmailTracking_campaigns (st : DBState) (t ip ua : String) (now : Nat) :
    (updateEmailTracking st t ip ua now).1.campaigns = st.campaigns := rfl

lemma openRow_of_delivered (t : String) (now : Nat) (e : EmailRecord)
    (htid : e.trackingId = some t) (hst : e.status = EmailStatus.delivered) :
    openRow t now e = { e with status := EmailStatus.opened, openedAt := some now } := by
  simp [openRow, htid, hst]

lemma openRow_of_not_delivered (t : String) (now : Nat) (e : EmailRecord)
    (hst : e.status ≠ EmailStatus.delivered) : openRow t now e = e := by
  simp [openRow, hst]

/-- C1: for an `EmailRecord` whose status is exactly `delivered`, the first
`recordOpen` on its token flips the status to `opened` and sets `openedAt`
to the call's clock; a second `recordOpen` on the same token leaves that
row (status and `openedAt` included) unchanged, while each of the two calls
appends one new `open` event to the event log. -/
theorem c1_open_compare_and_set (st : DBState) (i : Nat) (r : EmailRecord)
    (t ip ua ip2 ua2 : String) (n1 n2 : Nat)
    (hr : st.emails[i]? = some r)
    (htid : r.trackingId = some t) (hst : r.status = EmailStatus.delivered) :
    (updateEmailTracking st t ip ua n1).1.emails[i]? =
      some { r with status := EmailStatus.opened, openedAt := some n1 } ∧
    (updateEmailTracking st t ip ua n1).1.events =
      st.events ++ [({ trackingId := t, eventType := "open", ipAddress := ip,
                       userAgent := ua } : EmailEvent)] ∧
    (updateEmailTracking (updateEmailTracking st t ip ua n1).1 t ip2 ua2 n2).1.emails[i]? =
      some { r with status := EmailStatus.opened, openedAt := some n1 } ∧
    (updateEmailTracking (updateEmailTracking st t ip ua n1).1 t ip2 ua2 n2).1.events =
      st.events ++ [({ trackingId := t, eventType := "open", ipAddress := ip,
                       userAgent := ua } : EmailEvent),
                    ({ trackingId := t, eventType := "open", ipAddress := ip2,
                       userAgent := ua2 } : EmailEvent)] := by
  have h1 : (updateEmailTracking st t ip ua n1).1.emails[i]? =
      some { r with status := EmailStatus.opened, openedAt := some n1 } := by
    rw [updateEmailTracking_emails, List.getElem?_map, hr]
    simp [openRow_of_delivered t n1 r htid hst]
  refine ⟨h1, updateEmailTracking_events .., ?_, ?_⟩
  · rw [updateEmailTracking_emails, List.getElem?_map, h1]
    simp [openRow]
  · rw [updateEmailTracking_events, updateEmailTracking_events, List.append_assoc]
    rfl

/-- A store holding a single delivered record carrying tracking id `t`. -/
def c1Row : EmailRecord :=
  { messageId := "m1", sender := "s@x", recipient := "r@x", subject := "Hello",
    trackingId := some "t", status := EmailStatus.delivered,
    templateId := none, campaignId := none, openedAt := none }

def c1St : DBState := { emails := [c1Row], events := [], campaigns := [] }

/-- Witness for C1 at a concrete store: first open flips the single
delivered row, second open leaves it as the first left it. -/
theorem c1_open_compare_and_set_witness :
    (updateEmailTracking c1St "t" "ip1" "ua1" 5).1.emails[0]? =
      some { c1Row with status := EmailStatus.opened, openedAt := some 5 } ∧
    (updateEmailTracking (updateEmailTracking c1St "t" "ip1" "ua1" 5).1
        "t" "ip2" "ua2" 9).1.emails[0]? =
      some { c1Row with status := EmailStatus.opened, openedAt := some 5 } := by
  have h := c1_open_compare_and_set c1St 0 c1Row "t" "ip1" "ua1" "ip2" "ua2" 5 9
    (by decide) (by decide) (by decide)
  exact ⟨h.1, h.2.2.1⟩

/-- C4 counterexample: a `recordOpen` with a token that matches no stored
`EmailRecord` (the store holds no email rows at all) still appends an
`EmailEvent` — the event INSERT is unconditional, so the claim's "appends
no EmailEvent / events are appended only when the token is known" is false
on the code. -/
theorem c4_counterexample :
    initState.emails = [] ∧
    (updateEmailTracking initState "ghost-token" "ip" "ua" 0).1.events =
      [({ trackingId := "ghost-token", eventType := "open", ipAddress := "ip",
          userAgent := "ua" } : EmailEvent)] := by
  constructor
  · rfl
  · rfl

/-- C4 as amended: a `recordOpen` whose token matches no stored
`EmailRecord` modifies no email row, surfaces no error (the service returns
`true` and the endpoint always answers 200 with the fixed transparent GIF),
but it does append one `open` EmailEvent for the unknown token — the event
INSERT precedes the row lookup and is unconditional. -/
theorem c4_unknown_token_amended (st : DBState) (t ip ua : String) (now : Nat)
    (h : ∀ e ∈ st.emails, e.trackingId ≠ some t) :
    (updateEmailTracking st t ip ua now).1.emails = st.emails ∧
    (updateEmailTracking st t ip ua now).1.events =
      st.events ++ [({ trackingId := t, eventType := "open", ipAddress := ip,
                       userAgent := ua } : EmailEvent)] ∧
    (updateEmailTracking st t ip ua now).2 = true ∧
    trackEmailOpen st t ip ua now =
      ((updateEmailTracking st t ip ua now).1, 200, trackingPixelB64) := by
  refine ⟨?_, updateEmailTracking_events .., rfl, rfl⟩
  rw [updateEmailTracking_emails]
  have : ∀ e ∈ st.emails, openRow t now e = e := by
    intro e he
    simp [openRow, h e he]
  rw [List.map_congr_left this, List.map_id']

/-- Witness for the amended C4: a store holding one record under a
different token is untouched, while one event for the unknown token is
appended and the endpoint answers 200 with the GIF. -/
theorem c4_unknown_token_amended_witness :
    (updateEmailTracking c1St "other" "ip" "ua" 3).1.emails = c1St.emails ∧
    (updateEmailTracking c1St "other" "ip" "ua" 3).1.events =
      c1St.events ++ [({ trackingId := "other", eventType := "open",
                         ipAddress := "ip", userAgent := "ua" } : EmailEvent)] ∧
    (updateEmailTracking c1St "other" "ip" "ua" 3).2 = true ∧
    trackEmailOpen c1St "other" "ip" "ua" 3 =
      ((updateEmailTracking c1St "other" "ip" "ua" 3).1, 200, trackingPixelB64) :=
  c4_unknown_token_amended c1St "other" "ip" "ua" 3 (by decide)

/-! ### The template renderer -/

/-- An opening brace as a one-character string. -/
def lbrace : String := "\x7b"

/-- A closing brace as a one-character string. -/
def rbrace : String := "\x7d"

lemma takeWhile_append_stop (p : Char → Bool) (k : List Char) (x : Char)
    (xs : List Char) (hk : ∀ c ∈ k, p c = true) (hx : p x = false) :
    (k ++ x :: xs).takeWhile p = k := by
  induction k with
  | nil => simp [List.takeWhile_cons, hx]
  | cons a k ih =>
    have ha := hk a (by simp)
    simp only [List.cons_append, List.takeWhile_cons, ha, if_true]
    rw [ih (fun c hc => hk c (by simp [hc]))]

lemma substFuel_cons_of_ne (data : List (String × String)) (f : Nat) (c : Char)
    (cs : List Char) (hc : c ≠ '{') :
    substFuel data (f + 1) (c :: cs) = c :: substFuel data f cs := by
  simp [substFuel, hc]

lemma substFuel_placeholder (data : List (String × String)) (f : Nat)
    (k post : List Char) (hk : k ≠ []) (hk2 : ∀ c ∈ k, c ≠ '}') :
    substFuel data (f + 1) ('{' :: '{' :: (k ++ '}' :: '}' :: post)) =
      (match List.lookup (String.mk (trimChars k)) data with
       | some v => v.data
       | none => '{' :: '{' :: (k ++ ['}', '}'])) ++ substFuel data f post := by
  have htw : (k ++ '}' :: '}' :: post).takeWhile (fun x => x ≠ '}') = k :=
    takeWhile_append_stop _ k '}' ('}' :: post)
      (fun c hc => by simp [hk2 c hc]) (by simp)
  have hdrop : (k ++ '}' :: '}' :: post).drop k.length = '}' :: '}' :: post :=
    List.drop_left k _
  simp only [substFuel, List.head?_cons, List.tail_cons, htw, hdrop]
  simp [hk]

lemma substFuel_fuel_eq (data : List (String × String)) :
    ∀ f1 : Nat, ∀ cs : List Char, ∀ f2 : Nat,
      cs.length ≤ f1 → cs.length ≤ f2 →
      substFuel data f1 cs = substFuel data f2 cs := by
  intro f1
  induction f1 with
  | zero =>
    intro cs f2 h1 _
    have hnil : cs = [] := List.eq_nil_of_length_eq_zero (Nat.le_zero.mp h1)
    subst hnil
    cases f2 <;> rfl
  | succ f ih =>
    intro cs f2 h1 h2
    cases cs with
    | nil => cases f2 <;> rfl
    | cons c cs' =>
      cases f2 with
      | zero => simp at h2
      | succ g =>
        have hl1 : cs'.length ≤ f := by simp at h1; omega
        have hl2 : cs'.length ≤ g := by simp at h2; omega
        simp only [substFuel]
        split_ifs with hP hQ
        · congr 1
          apply ih
          · have := List.length_drop
              (cs'.tail.takeWhile (fun x => x ≠ '}')).length cs'.tail
            simp only [List.length_tail] at *
            omega
          · have := List.length_drop
              (cs'.tail.takeWhile (fun x => x ≠ '}')).length cs'.tail
            simp only [List.length_tail] at *
            omega
        · exact congrArg _ (ih cs' g hl1 hl2)
        · exact congrArg _ (ih cs' g hl1 hl2)

lemma substFuel_run (data : List (String × String)) (k post : List Char)
    (hk : k ≠ []) (hk2 : ∀ c ∈ k, c ≠ '}') :
    ∀ pre : List Char, (∀ c ∈ pre, c ≠ '{') →
    ∀ f : Nat, pre.length + k.length + post.length + 4 ≤ f →
    substFuel data f (pre ++ '{' :: '{' :: (k ++ '}' :: '}' :: post)) =
      pre ++ ((match List.lookup (String.mk (trimChars k)) data with
               | some v => v.data
               | none => '{' :: '{' :: (k ++ ['}', '}'])) ++
              substFuel data post.length post) := by
  intro pre
  induction pre with
  | nil =>
    intro _ f hf
    cases f with
    | zero => omega
    | succ f' =>
      simp only [List.nil_append]
      rw [substFuel_placeholder data f' k post hk hk2]
      congr 1
      apply substFuel_fuel_eq
      · simp at hf; omega
      · exact le_refl _
  | cons c pre' ih =>
    intro hpre f hf
    cases f with
    | zero => omega
    | succ f' =>
      rw [List.cons_append,
        substFuel_cons_of_ne data f' c _ (hpre c (by simp)),
        ih (fun x hx => hpre x (by simp [hx])) f' (by simp at hf ⊢; omega)]
      rfl

lemma string_mk_eq (a : String) (l : List Char) (h : l = a.data) :
    String.mk l = a := by
  cases a
  simpa using congrArg String.mk h

/-- C7: `replacePlaceholders` replaces an occurrence of a braced
placeholder (key taken as the trimmed inner text) by the recipient's value
when the key is in the mapping and leaves the placeholder verbatim with no
error when it is absent — uniformly in what comes before, what comes after
(the rest of the content is rendered recursively, covering every
occurrence), and the data; in particular rendering `Hello [[name]]` against
`name = Ann` yields `Hello Ann` and rendering `Hi [[missing]]` against the
empty mapping is the identity (brackets standing for braces here). -/
theorem c7_render_placeholders :
    (∀ (data : List (String × String)) (pre k post : String),
        (∀ c ∈ pre.data, c ≠ '{') → k ≠ "" → (∀ c ∈ k.data, c ≠ '}') →
        replacePlaceholders (pre ++ lbrace ++ lbrace ++ k ++ rbrace ++ rbrace ++ post)
            data =
          pre ++ ((match List.lookup (String.mk (trimChars k.data)) data with
                   | some v => v
                   | none => lbrace ++ lbrace ++ k ++ rbrace ++ rbrace) ++
                  replacePlaceholders post data)) ∧
    replacePlaceholders ("Hello " ++ lbrace ++ lbrace ++ "name" ++ rbrace ++ rbrace)
        [("name", "Ann")] = "Hello Ann" ∧
    replacePlaceholders ("Hi " ++ lbrace ++ lbrace ++ "missing" ++ rbrace ++ rbrace)
        [] =
      "Hi " ++ lbrace ++ lbrace ++ "missing" ++ rbrace ++ rbrace := by
  refine ⟨?_, by decide, by decide⟩
  intro data pre k post hpre hk hk2
  have hlb : lbrace.data = ['{'] := rfl
  have hrb : rbrace.data = ['}'] := rfl
  have hkd : k.data ≠ [] := by
    intro h
    exact hk (by cases k; simp_all)
  have hdata : (pre ++ lbrace ++ lbrace ++ k ++ rbrace ++ rbrace ++ post).data =
      pre.data ++ '{' :: '{' :: (k.data ++ '}' :: '}' :: post.data) := by
    simp [String.data_append, hlb, hrb]
  rw [replacePlaceholders, hdata]
  rw [substFuel_run data k.data post.data hkd hk2 pre.data hpre _
    (by simp [List.length_append]; omega)]
  apply string_mk_eq
  rcases hL : List.lookup (String.mk (trimChars k.data)) data with _ | v
  · simp [hL, String.data_append, hlb, hrb, replacePlaceholders]
  · simp [hL, String.data_append, replacePlaceholders]

/-- Witness for C7's general clause: substituting the only placeholder of
a concrete content against a concrete mapping. -/
theorem c7_render_placeholders_witness :
    replacePlaceholders ("Dear " ++ lbrace ++ lbrace ++ "user" ++ rbrace ++ rbrace ++
        ", bye") [("user", "Sam")] =
      "Dear " ++ ((match List.lookup (String.mk (trimChars "user".data))
                      [("user", "Sam")] with
                   | some v => v
                   | none => lbrace ++ lbrace ++ "user" ++ rbrace ++ rbrace) ++
                  replacePlaceholders ", bye" [("user", "Sam")]) :=
  c7_render_placeholders.1 [("user", "Sam")] "Dear " "user" ", bye"
    (by decide) (by decide) (by decide)

/-! ### Facts about `sendEmail` and the bulk loop -/

/-- Whether a transport verdict is a delivery. -/
def okB (x : Except String SendInfo) : Bool :=
  match x with
  | .ok _ => true
  | .error _ => false

lemma sendEmail_error_eq (msg : String) (saveOk : Bool) (apiUrl : String)
    (creds : Credentials) (o : EmailOptions) (tid : String) (st : DBState) :
    sendEmail (.error msg) saveOk apiUrl creds o tid st =
      .error ("Failed to send email: " ++ msg) := rfl

lemma sendEmail_ok_eq (info : SendInfo) (saveOk : Bool) (apiUrl : String)
    (creds : Credentials) (o : EmailOptions) (tid : String) (st : DBState) :
    sendEmail (.ok info) saveOk apiUrl creds o tid st =
      .ok ({ messageId := info.messageId,
             trackingId := (computeTracking o tid apiUrl).1,
             envelope := info.envelope, response := info.response },
           match (computeTracking o tid apiUrl).1 with
           | some t =>
             saveEmailToDB st
               { messageId := info.messageId,
                 sender := orElseStr o.fromAddr creds.email,
                 recipient := o.toAddr, subject := o.subject,
                 trackingId := some t, status := EmailStatus.delivered,
                 templateId := o.templateId, campaignId := o.campaignId,
                 openedAt := none } saveOk
           | none => st) := rfl

lemma sendEmail_ok_state (attempt : Except String SendInfo) (saveOk : Bool)
    (apiUrl : String) (creds : Credentials) (o : EmailOptions) (tid : String)
    (st : DBState) (res : SendResult) (st' : DBState)
    (h : sendEmail attempt saveOk apiUrl creds o tid st = .ok (res, st')) :
    st'.campaigns = st.campaigns ∧ st'.events = st.events ∧
    (st'.emails = st.emails ∨
      ∃ row : EmailRecord, st'.emails = st.emails ++ [row] ∧
        row.status = EmailStatus.delivered) := by
  cases attempt with
  | error m => exact absurd h (by simp [sendEmail_error_eq])
  | ok info =>
    rw [sendEmail_ok_eq] at h
    simp only [Except.ok.injEq, Prod.mk.injEq] at h
    obtain ⟨-, hst⟩ := h
    subst hst
    cases htr : (computeTracking o tid apiUrl).1 with
    | none => simp [htr]
    | some t =>
      simp only [htr]
      cases hs : saveOk with
      | false => simp [saveEmailToDB, hs]
      | true =>
        refine ⟨rfl, rfl, Or.inr
          ⟨{ messageId := info.messageId, sender := orElseStr o.fromAddr creds.email,
             recipient := o.toAddr, subject := o.subject, trackingId := some t,
             status := EmailStatus.delivered, templateId := o.templateId,
             campaignId := o.campaignId, openedAt := none }, ?_, rfl⟩⟩
        simp [saveEmailToDB, hs]

section BulkLoopFacts

variable (trans : String → Except String SendInfo) (saveOk : String → Bool)
  (mkTid : Nat → String) (apiUrl : String) (creds : Credentials)
  (tmpl : BulkTemplate) (cid : Option String)

lemma bulkLoop_succ_emails :
    ∀ (rs : List Recipient) (succ : List SuccessEntry) (failed : List FailEntry)
      (st : DBState) (k : Nat),
      (bulkLoop trans saveOk mkTid apiUrl creds tmpl cid rs succ failed st k).1.map
          SuccessEntry.email =
        succ.map SuccessEntry.email ++
          (rs.filter (fun r => okB (trans (recipientEmail r)))).map recipientEmail := by
  intro rs
  induction rs with
  | nil => intro succ failed st k; simp [bulkLoop]
  | cons r rs ih =>
    intro succ failed st k
    cases htr : trans (recipientEmail r) with
    | ok info =>
      simp only [bulkLoop, htr, sendEmail_ok_eq]
      rw [ih]
      simp [List.filter_cons, htr, okB]
    | error m =>
      simp only [bulkLoop, htr, sendEmail_error_eq]
      rw [ih]
      simp [List.filter_cons, htr, okB]

lemma bulkLoop_failed_emails :
    ∀ (rs : List Recipient) (succ : List SuccessEntry) (failed : List FailEntry)
      (st : DBState) (k : Nat),
      (bulkLoop trans saveOk mkTid apiUrl creds tmpl cid rs succ failed st k).2.1.map
          FailEntry.email =
        failed.map FailEntry.email ++
          (rs.filter (fun r => !okB (trans (recipientEmail r)))).map recipientEmail := by
  intro rs
  induction rs with
  | nil => intro succ failed st k; simp [bulkLoop]
  | cons r rs ih =>
    intro succ failed st k
    cases htr : trans (recipientEmail r) with
    | ok info =>
      simp only [bulkLoop, htr, sendEmail_ok_eq]
      rw [ih]
      simp [List.filter_cons, htr, okB]
    | error m =>
      simp only [bulkLoop, htr, sendEmail_error_eq]
      rw [ih]
      simp [List.filter_cons, htr, okB]

lemma bulkLoop_lengths :
    ∀ (rs : List Recipient) (succ : List SuccessEntry) (failed : List FailEntry)
      (st : DBState) (k : Nat),
      (bulkLoop trans saveOk mkTid apiUrl creds tmpl cid rs succ failed st k).1.length +
        (bulkLoop trans saveOk mkTid apiUrl creds tmpl cid rs succ failed st k).2.1.length =
        succ.length + failed.length + rs.length := by
  intro rs
  induction rs with
  | nil => intro succ failed st k; simp [bulkLoop]
  | cons r rs ih =>
    intro succ failed st k
    cases htr : trans (recipientEmail r) with
    | ok info =>
      simp only [bulkLoop, htr, sendEmail_ok_eq]
      rw [ih]
      simp
      omega
    | error m =>
      simp only [bulkLoop, htr, sendEmail_error_eq]
      rw [ih]
      simp
      omega

lemma bulkLoop_campaigns_events :
    ∀ (rs : List Recipient) (succ : List SuccessEntry) (failed : List FailEntry)
      (st : DBState) (k : Nat),
      (bulkLoop trans saveOk mkTid apiUrl creds tmpl cid rs succ failed st k).2.2.campaigns =
        st.campaigns ∧
      (bulkLoop trans saveOk mkTid apiUrl creds tmpl cid rs succ failed st k).2.2.events =
        st.events := by
  intro rs
  induction rs with
  | nil => intro succ failed st k; exact ⟨rfl, rfl⟩
  | cons r rs ih =>
    intro succ failed st k
    cases htr : trans (recipientEmail r) with
    | ok info =>
      simp only [bulkLoop, htr, sendEmail_ok_eq]
      have hstate := sendEmail_ok_state (.ok info) (saveOk (recipientEmail r)) apiUrl
        creds (bulkOptions tmpl r cid) (mkTid k) st _ _ (sendEmail_ok_eq ..)
      constructor
      · rw [(ih _ _ _ _).1, hstate.1]
      · rw [(ih _ _ _ _).2, hstate.2.1]
    | error m =>
      simp only [bulkLoop, htr, sendEmail_error_eq]
      exact ih succ _ st (k + 1)

lemma bulkLoop_emails_mono :
    ∀ (rs : List Recipient) (succ : List SuccessEntry) (failed : List FailEntry)
      (st : DBState) (k : Nat) (x : EmailRecord), x ∈ st.emails →
      x ∈ (bulkLoop trans saveOk mkTid apiUrl creds tmpl cid rs succ failed st k).2.2.emails := by
  intro rs
  induction rs with
  | nil => intro succ failed st k x hx; exact hx
  | cons r rs ih =>
    intro succ failed st k x hx
    cases htr : trans (recipientEmail r) with
    | ok info =>
      simp only [bulkLoop, htr, sendEmail_ok_eq]
      apply ih
      have hstate := sendEmail_ok_state (.ok info) (saveOk (recipientEmail r)) apiUrl
        creds (bulkOptions tmpl r cid) (mkTid k) st _ _ (sendEmail_ok_eq ..)
      rcases hstate.2.2 with heq | ⟨row, heq, -⟩
      · rw [heq]; exact hx
      · rw [heq]; exact List.mem_append_left _ hx
    | error m =>
      simp only [bulkLoop, htr, sendEmail_error_eq]
      exact ih succ _ st (k + 1) x hx

lemma bulkLoop_emails_pres (P : EmailRecord → Prop)
    (hP : ∀ row : EmailRecord, row.status = EmailStatus.delivered → P row) :
    ∀ (rs : List Recipient) (succ : List SuccessEntry) (failed : List FailEntry)
      (st : DBState) (k : Nat), (∀ e ∈ st.emails, P e) →
      ∀ e ∈ (bulkLoop trans saveOk mkTid apiUrl creds tmpl cid rs succ failed st k).2.2.emails,
        P e := by
  intro rs
  induction rs with
  | nil => intro succ failed st k hst e he; exact hst e he
  | cons r rs ih =>
    intro succ failed st k hst e he
    cases htr : trans (recipientEmail r) with
    | ok info =>
      simp only [bulkLoop, htr, sendEmail_ok_eq] at he
      refine ih _ _ _ _ ?_ e he
      have hstate := sendEmail_ok_state (.ok info) (saveOk (recipientEmail r)) apiUrl
        creds (bulkOptions tmpl r cid) (mkTid k) st _ _ (sendEmail_ok_eq ..)
      rcases hstate.2.2 with heq | ⟨row, heq, hrow⟩
      · rw [heq]; exact hst
      · rw [heq]
        intro x hx
        rcases List.mem_append.mp hx with hl | hr
        · exact hst x hl
        · rw [List.mem_singleton.mp hr]; exact hP row hrow
    | error m =>
      simp only [bulkLoop, htr, sendEmail_error_eq] at he
      exact ih _ _ _ _ hst e he

end BulkLoopFacts

lemma bulkLoop_res_indep (trans : String → Except String SendInfo)
    (saveOk1 saveOk2 : String → Bool) (mkTid : Nat → String) (apiUrl : String)
    (creds : Credentials) (tmpl : BulkTemplate) (cid : Option String) :
    ∀ (rs : List Recipient) (succ : List SuccessEntry) (failed : List FailEntry)
      (st1 st2 : DBState) (k : Nat),
      (bulkLoop trans saveOk1 mkTid apiUrl creds tmpl cid rs succ failed st1 k).1 =
        (bulkLoop trans saveOk2 mkTid apiUrl creds tmpl cid rs succ failed st2 k).1 ∧
      (bulkLoop trans saveOk1 mkTid apiUrl creds tmpl cid rs succ failed st1 k).2.1 =
        (bulkLoop trans saveOk2 mkTid apiUrl creds tmpl cid rs succ failed st2 k).2.1 := by
  intro rs
  induction rs with
  | nil => intro succ failed st1 st2 k; exact ⟨rfl, rfl⟩
  | cons r rs ih =>
    intro succ failed st1 st2 k
    cases htr : trans (recipientEmail r) with
    | ok info =>
      simp only [bulkLoop, htr, sendEmail_ok_eq]
      exact ih _ _ _ _ _
    | error m =>
      simp only [bulkLoop, htr, sendEmail_error_eq]
      exact ih _ _ _ _ _

lemma bulkLoop_saves_record (trans : String → Except String SendInfo)
    (saveOk : String → Bool) (mkTid : Nat → String) (apiUrl : String)
    (creds : Credentials) (tmpl : BulkTemplate) (cid : Option String)
    (htrOn : tmpl.enableTracking ≠ some false) :
    ∀ (rs : List Recipient) (succ : List SuccessEntry) (failed : List FailEntry)
      (st : DBState) (k : Nat) (r : Recipient), r ∈ rs →
      ∀ info : SendInfo, trans (recipientEmail r) = .ok info →
      saveOk (recipientEmail r) = true →
      ∃ row ∈ (bulkLoop trans saveOk mkTid apiUrl creds tmpl cid rs succ failed st k).2.2.emails,
        row.status = EmailStatus.delivered ∧ row.messageId = info.messageId ∧
        row.sender = creds.email ∧ row.recipient = recipientEmail r ∧
        row.subject = replacePlaceholders tmpl.subject r ∧
        row.templateId = tmpl.templateId ∧ row.campaignId = cid ∧
        row.trackingId.isSome = true := by
  intro rs
  induction rs with
  | nil => intro succ failed st k r hr; exact absurd hr (by simp)
  | cons r0 rs ih =>
    intro succ failed st k r hr info htr hsave
    rcases List.mem_cons.mp hr with rfl | hr'
    · simp only [bulkLoop, htr, sendEmail_ok_eq]
      have hbe : (bulkOptions tmpl r cid).enableTracking = tmpl.enableTracking := rfl
      have hct : (computeTracking (bulkOptions tmpl r cid) (mkTid k) apiUrl).1 =
          some (mkTid k) := by
        simp [computeTracking, hbe, htrOn]
      simp only [hct]
      refine ⟨{ messageId := info.messageId, sender := creds.email,
                recipient := recipientEmail r,
                subject := replacePlaceholders tmpl.subject r,
                trackingId := some (mkTid k), status := EmailStatus.delivered,
                templateId := tmpl.templateId, campaignId := cid,
                openedAt := none }, ?_, rfl, rfl, rfl, rfl, rfl, rfl, rfl, rfl⟩
      apply bulkLoop_emails_mono
      simp [saveEmailToDB, hsave, orElseStr, bulkOptions]
    · cases htr0 : trans (recipientEmail r0) with
      | ok info0 =>
        simp only [bulkLoop, htr0, sendEmail_ok_eq]
        exact ih _ _ _ _ r hr' info htr hsave
      | error m =>
        simp only [bulkLoop, htr0, sendEmail_error_eq]
        exact ih _ _ _ _ r hr' info htr hsave

/-! ### Unfolding `sendBulkEmails` -/

lemma sendBulkEmails_none_eq (trans : String → Except String SendInfo)
    (saveOk : String → Bool) (mkTid : Nat → String) (apiUrl : String)
    (creds : Credentials) (recipients : List Recipient) (tmpl : BulkTemplate)
    (st : DBState) (now : Nat) :
    sendBulkEmails trans saveOk mkTid apiUrl creds recipients tmpl none st now =
      .ok ({ totalSent := (bulkLoop trans saveOk mkTid apiUrl creds tmpl none
                recipients [] [] st 0).1.length,
             totalFailed := (bulkLoop trans saveOk mkTid apiUrl creds tmpl none
                recipients [] [] st 0).2.1.length,
             successfulRecipients := (bulkLoop trans saveOk mkTid apiUrl creds tmpl none
                recipients [] [] st 0).1,
             failedRecipients := (bulkLoop trans saveOk mkTid apiUrl creds tmpl none
                recipients [] [] st 0).2.1 },
           (bulkLoop trans saveOk mkTid apiUrl creds tmpl none
                recipients [] [] st 0).2.2) := rfl

lemma sendBulkEmails_some_eq (trans : String → Except String SendInfo)
    (saveOk : String → Bool) (mkTid : Nat → String) (apiUrl : String)
    (creds : Credentials) (recipients : List Recipient) (tmpl : BulkTemplate)
    (cid : String) (st : DBState) (now : Nat)
    (hdup : st.campaigns.any (fun c => c.id = cid) = false) :
    sendBulkEmails trans saveOk mkTid apiUrl creds recipients tmpl (some cid) st now =
      .ok ({ totalSent := (bulkLoop trans saveOk mkTid apiUrl creds tmpl (some cid)
                recipients [] [] { st with campaigns :=
                  st.campaigns ++ [freshCampaign creds tmpl recipients cid] } 0).1.length,
             totalFailed := (bulkLoop trans saveOk mkTid apiUrl creds tmpl (some cid)
                recipients [] [] { st with campaigns :=
                  st.campaigns ++ [freshCampaign creds tmpl recipients cid] } 0).2.1.length,
             successfulRecipients := (bulkLoop trans saveOk mkTid apiUrl creds tmpl (some cid)
                recipients [] [] { st with campaigns :=
                  st.campaigns ++ [freshCampaign creds tmpl recipients cid] } 0).1,
             failedRecipients := (bulkLoop trans saveOk mkTid apiUrl creds tmpl (some cid)
                recipients [] [] { st with campaigns :=
                  st.campaigns ++ [freshCampaign creds tmpl recipients cid] } 0).2.1 },
           campaignClose cid
             (bulkLoop trans saveOk mkTid apiUrl creds tmpl (some cid)
                recipients [] [] { st with campaigns :=
                  st.campaigns ++ [freshCampaign creds tmpl recipients cid] } 0).1.length
             (bulkLoop trans saveOk mkTid apiUrl creds tmpl (some cid)
                recipients [] [] { st with campaigns :=
                  st.campaigns ++ [freshCampaign creds tmpl recipients cid] } 0).2.1.length
             now
             (bulkLoop trans saveOk mkTid apiUrl creds tmpl (some cid)
                recipients [] [] { st with campaigns :=
                  st.campaigns ++ [freshCampaign creds tmpl recipients cid] } 0).2.2) := by
  simp [sendBulkEmails, hdup]

lemma sendBulkEmails_some_fresh (trans : String → Except String SendInfo)
    (saveOk : String → Bool) (mkTid : Nat → String) (apiUrl : String)
    (creds : Credentials) (recipients : List Recipient) (tmpl : BulkTemplate)
    (cid : String) (st : DBState) (now : Nat) (res : BulkResult) (st' : DBState)
    (h : sendBulkEmails trans saveOk mkTid apiUrl creds recipients tmpl (some cid)
      st now = .ok (res, st')) :
    st.campaigns.any (fun c => c.id = cid) = false := by
  by_contra hd
  rw [Bool.not_eq_false] at hd
  simp [sendBulkEmails, hd] at h

/-- C2: a bulk dispatch routes every recipient of the batch into exactly
one of the two result lists: the lengths of `successful` and `failed` sum
to the batch size, `successful` carries exactly the recipients whose
transport attempt delivered (in input order), `failed` exactly the others,
and no destination address occurs in both lists. -/
theorem c2_bulk_partition (trans : String → Except String SendInfo)
    (saveOk : String → Bool) (mkTid : Nat → String) (apiUrl : String)
    (creds : Credentials) (recipients : List Recipient) (tmpl : BulkTemplate)
    (campaignId : Option String) (st : DBState) (now : Nat) (res : BulkResult)
    (st' : DBState)
    (h : sendBulkEmails trans saveOk mkTid apiUrl creds recipients tmpl
      campaignId st now = .ok (res, st')) :
    res.successfulRecipients.length + res.failedRecipients.length =
      recipients.length ∧
    res.successfulRecipients.map SuccessEntry.email =
      (recipients.filter (fun r => okB (trans (recipientEmail r)))).map recipientEmail ∧
    res.failedRecipients.map FailEntry.email =
      (recipients.filter (fun r => !okB (trans (recipientEmail r)))).map recipientEmail ∧
    ∀ e : String, e ∈ res.successfulRecipients.map SuccessEntry.email →
      e ∈ res.failedRecipients.map FailEntry.email → False := by
  have core : ∀ st0 : DBState,
      (bulkLoop trans saveOk mkTid apiUrl creds tmpl campaignId recipients [] [] st0 0).1.length +
        (bulkLoop trans saveOk mkTid apiUrl creds tmpl campaignId recipients [] [] st0 0).2.1.length =
        recipients.length ∧
      (bulkLoop trans saveOk mkTid apiUrl creds tmpl campaignId recipients [] [] st0 0).1.map
          SuccessEntry.email =
        (recipients.filter (fun r => okB (trans (recipientEmail r)))).map recipientEmail ∧
      (bulkLoop trans saveOk mkTid apiUrl creds tmpl campaignId recipients [] [] st0 0).2.1.map
          FailEntry.email =
        (recipients.filter (fun r => !okB (trans (recipientEmail r)))).map recipientEmail ∧
      ∀ e : String,
        e ∈ (bulkLoop trans saveOk mkTid apiUrl creds tmpl campaignId recipients [] [] st0 0).1.map
            SuccessEntry.email →
        e ∈ (bulkLoop trans saveOk mkTid apiUrl creds tmpl campaignId recipients [] [] st0 0).2.1.map
            FailEntry.email → False := by
    intro st0
    have hs := bulkLoop_succ_emails trans saveOk mkTid apiUrl creds tmpl campaignId
      recipients [] [] st0 0
    have hf := bulkLoop_failed_emails trans saveOk mkTid apiUrl creds tmpl campaignId
      recipients [] [] st0 0
    simp only [List.map_nil, List.nil_append] at hs hf
    refine ⟨?_, hs, hf, ?_⟩
    · have := bulkLoop_lengths trans saveOk mkTid apiUrl creds tmpl campaignId
        recipients [] [] st0 0
      simpa using this
    · intro e he hfm
      rw [hs] at he
      rw [hf] at hfm
      obtain ⟨r1, hr1, he1⟩ := List.mem_map.mp he
      obtain ⟨r2, hr2, he2⟩ := List.mem_map.mp hfm
      have hok : okB (trans e) = true := by
        rw [← he1]; exact (List.mem_filter.mp hr1).2
      have hko : (!okB (trans e)) = true := by
        rw [← he2]; exact (List.mem_filter.mp hr2).2
      simp [hok] at hko
  cases campaignId with
  | none =>
    rw [sendBulkEmails_none_eq] at h
    simp only [Except.ok.injEq, Prod.mk.injEq] at h
    obtain ⟨hres, -⟩ := h
    subst hres
    exact core st
  | some cid =>
    have hdup := sendBulkEmails_some_fresh trans saveOk mkTid apiUrl creds recipients
      tmpl cid st now res st' h
    rw [sendBulkEmails_some_eq trans saveOk mkTid apiUrl creds recipients tmpl cid
      st now hdup] at h
    simp only [Except.ok.injEq, Prod.mk.injEq] at h
    obtain ⟨hres, -⟩ := h
    subst hres
    exact core _

/-- A one-recipient batch whose transport always delivers, used as the C2
witness input. -/
def w2r : Recipient := [("email", "a@x")]

def w2trans : String → Except String SendInfo :=
  fun e => .ok { messageId := "m-" ++ e, envelope := "env", response := "resp" }

def w2saveOk : String → Bool := fun _ => true

def w2tid : Nat → String := fun k => String.mk ('t' :: List.replicate k 'x')

def w2creds : Credentials :=
  { email := "me@x", clientId := "", clientSecret := "", refreshToken := "" }

def w2tmpl : BulkTemplate :=
  { subject := "S", text := some "T", html := none, attachments := none,
    enableTracking := none, templateId := none }

def w2res : BulkResult :=
  { totalSent := 1, totalFailed := 0,
    successfulRecipients :=
      [{ email := "a@x", messageId := "m-a@x", trackingId := some "t" }],
    failedRecipients := [] }

def w2st : DBState :=
  { emails := [{ messageId := "m-a@x", sender := "me@x", recipient := "a@x",
                 subject := "S", trackingId := some "t",
                 status := EmailStatus.delivered, templateId := none,
                 campaignId := none, openedAt := none }],
    events := [], campaigns := [] }

/-- Witness for C2 on a concrete one-recipient batch. -/
theorem c2_bulk_partition_witness :
    w2res.successfulRecipients.length + w2res.failedRecipients.length =
      [w2r].length ∧
    w2res.successfulRecipients.map SuccessEntry.email =
      ([w2r].filter (fun r => okB (w2trans (recipientEmail r)))).map recipientEmail ∧
    w2res.failedRecipients.map FailEntry.email =
      ([w2r].filter (fun r => !okB (w2trans (recipientEmail r)))).map recipientEmail ∧
    ∀ e : String, e ∈ w2res.successfulRecipients.map SuccessEntry.email →
      e ∈ w2res.failedRecipients.map FailEntry.email → False :=
  c2_bulk_partition w2trans w2saveOk w2tid "u" w2creds [w2r] w2tmpl none initState 0
    w2res w2st (by rfl)

/-- C3: in a bulk dispatch with a campaign id, one recipient's transport
failure aborts or skips no other recipient — the two result lists are
exactly the delivered and the failed recipients of the whole batch, in
input order — and after the loop exactly one terminal campaign update is
written: the campaign row ends `completed` with `sent_count` and
`failed_count` equal to the two list lengths and `completed_at` set, all
other campaign rows untouched. -/
theorem c3_failure_isolated_terminal_update (trans : String → Except String SendInfo)
    (saveOk : String → Bool) (mkTid : Nat → String) (apiUrl : String)
    (creds : Credentials) (recipients : List Recipient) (tmpl : BulkTemplate)
    (cid : String) (st : DBState) (now : Nat) (res : BulkResult) (st' : DBState)
    (h : sendBulkEmails trans saveOk mkTid apiUrl creds recipients tmpl
      (some cid) st now = .ok (res, st')) :
    res.successfulRecipients.map SuccessEntry.email =
      (recipients.filter (fun r => okB (trans (recipientEmail r)))).map recipientEmail ∧
    res.failedRecipients.map FailEntry.email =
      (recipients.filter (fun r => !okB (trans (recipientEmail r)))).map recipientEmail ∧
    st'.campaigns = st.campaigns ++
      [{ id := cid, name := tmpl.subject, sender := creds.email,
         status := CampaignStatus.completed,
         totalRecipients := recipients.length,
         sentCount := res.successfulRecipients.length,
         failedCount := res.failedRecipients.length,
         completedAt := some now }] := by
  have hdup := sendBulkEmails_some_fresh trans saveOk mkTid apiUrl creds recipients
    tmpl cid st now res st' h
  rw [sendBulkEmails_some_eq trans saveOk mkTid apiUrl creds recipients tmpl cid
    st now hdup] at h
  simp only [Except.ok.injEq, Prod.mk.injEq] at h
  obtain ⟨hres, hst⟩ := h
  subst hres
  subst hst
  have hs := bulkLoop_succ_emails trans saveOk mkTid apiUrl creds tmpl (some cid)
    recipients [] [] { st with campaigns :=
      st.campaigns ++ [freshCampaign creds tmpl recipients cid] } 0
  have hf := bulkLoop_failed_emails trans saveOk mkTid apiUrl creds tmpl (some cid)
    recipients [] [] { st with campaigns :=
      st.campaigns ++ [freshCampaign creds tmpl recipients cid] } 0
  simp only [List.map_nil, List.nil_append] at hs hf
  refine ⟨hs, hf, ?_⟩
  have hcamp := (bulkLoop_campaigns_events trans saveOk mkTid apiUrl creds tmpl
    (some cid) recipients [] [] { st with campaigns :=
      st.campaigns ++ [freshCampaign creds tmpl recipients cid] } 0).1
  simp only [List.any_eq_false] at hdup
  show (campaignClose cid _ _ now _).campaigns = _
  rw [campaignClose]
  simp only [hcamp, List.map_append]
  congr 1
  · rw [List.map_congr_left, List.map_id']
    intro c hc
    have := hdup c hc
    simp at this
    simp [this]
  · simp [freshCampaign]

/-- The three-recipient scenario of C3: the transport raises on the second
recipient only. -/
def c3r1 : Recipient := [("email", "a@x")]

def c3r2 : Recipient := [("email", "b@x")]

def c3r3 : Recipient := [("email", "c@x")]

def c3trans : String → Except String SendInfo :=
  fun e => if e = "b@x" then .error "boom"
           else .ok { messageId := "mid-" ++ e, envelope := "env", response := "ok" }

def c3res : BulkResult :=
  { totalSent := 2, totalFailed := 1,
    successfulRecipients :=
      [{ email := "a@x", messageId := "mid-a@x", trackingId := some "t" },
       { email := "c@x", messageId := "mid-c@x", trackingId := some "txx" }],
    failedRecipients := [{ email := "b@x", error := "Failed to send email: boom" }] }

def c3st : DBState :=
  { emails :=
      [{ messageId := "mid-a@x", sender := "me@x", recipient := "a@x",
         subject := "S", trackingId := some "t", status := EmailStatus.delivered,
         templateId := none, campaignId := some "camp", openedAt := none },
       { messageId := "mid-c@x", sender := "me@x", recipient := "c@x",
         subject := "S", trackingId := some "txx", status := EmailStatus.delivered,
         templateId := none, campaignId := some "camp", openedAt := none }],
    events := [],
    campaigns := [{ id := "camp", name := "S", sender := "me@x",
                    status := CampaignStatus.completed, totalRecipients := 3,
                    sentCount := 2, failedCount := 1, completedAt := some 7 }] }

/-- Witness for C3: dispatching the three concrete recipients where the
transport raises on the second yields `successful = [first, third]`,
`failed = [second]`, and one campaign row `completed` with counts 2 and 1. -/
theorem c3_failure_isolated_terminal_update_witness :
    c3res.successfulRecipients.map SuccessEntry.email =
      ([c3r1, c3r2, c3r3].filter
        (fun r => okB (c3trans (recipientEmail r)))).map recipientEmail ∧
    c3res.failedRecipients.map FailEntry.email =
      ([c3r1, c3r2, c3r3].filter
        (fun r => !okB (c3trans (recipientEmail r)))).map recipientEmail ∧
    c3st.campaigns = initState.campaigns ++
      [{ id := "camp", name := w2tmpl.subject, sender := w2creds.email,
         status := CampaignStatus.completed, totalRecipients := 3,
         sentCount := 2, failedCount := 1, completedAt := some 7 }] :=
  c3_failure_isolated_terminal_update c3trans w2saveOk w2tid "u" w2creds
    [c3r1, c3r2, c3r3] w2tmpl "camp" initState 7 c3res c3st (by rfl)

/-- A bulk template that disables tracking (`enableTracking = false`). -/
def c5tmpl : BulkTemplate :=
  { subject := "S", text := some "T", html := none, attachments := none,
    enableTracking := some false, templateId := none }

/-- C5 counterexample: dispatching one recipient whose transport succeeds,
with `enableTracking = false`, appends the recipient to `successful` but
persists no `EmailRecord` at all (the save only happens when a tracking id
was minted), so "for every recipient whose Transport.send call succeeds
... an EmailRecord with status 'delivered' is persisted" is false on the
code. -/
theorem c5_counterexample :
    sendBulkEmails w2trans w2saveOk w2tid "u" w2creds [w2r] c5tmpl none initState 0 =
      .ok ({ totalSent := 1, totalFailed := 0,
             successfulRecipients :=
               [{ email := "a@x", messageId := "m-a@x", trackingId := none }],
             failedRecipients := [] }, initState) ∧
    initState.emails = [] := ⟨rfl, rfl⟩

/-- C5 as amended: for every recipient of a bulk dispatch whose transport
attempt delivers, the recipient is appended to the successful list; and
additionally provided tracking is enabled for the batch and the bookkeeping
insert succeeds, a `delivered` EmailRecord is persisted recording the
message id, sender, recipient, personalized subject, a minted tracking id,
and the template and campaign ids. -/
theorem c5_success_persists_delivered_amended
    (trans : String → Except String SendInfo) (saveOk : String → Bool)
    (mkTid : Nat → String) (apiUrl : String) (creds : Credentials)
    (recipients : List Recipient) (tmpl : BulkTemplate)
    (campaignId : Option String) (st : DBState) (now : Nat) (res : BulkResult)
    (st' : DBState)
    (h : sendBulkEmails trans saveOk mkTid apiUrl creds recipients tmpl
      campaignId st now = .ok (res, st'))
    (r : Recipient) (hr : r ∈ recipients) (info : SendInfo)
    (htr : trans (recipientEmail r) = .ok info)
    (htrOn : tmpl.enableTracking ≠ some false)
    (hsave : saveOk (recipientEmail r) = true) :
    recipientEmail r ∈ res.successfulRecipients.map SuccessEntry.email ∧
    ∃ row ∈ st'.emails, row.status = EmailStatus.delivered ∧
      row.messageId = info.messageId ∧ row.sender = creds.email ∧
      row.recipient = recipientEmail r ∧
      row.subject = replacePlaceholders tmpl.subject r ∧
      row.templateId = tmpl.templateId ∧ row.campaignId = campaignId ∧
      row.trackingId.isSome = true := by
  have hmem : ∀ st0 : DBState,
      recipientEmail r ∈
        ((bulkLoop trans saveOk mkTid apiUrl creds tmpl campaignId recipients
          [] [] st0 0).1.map SuccessEntry.email) := by
    intro st0
    rw [bulkLoop_succ_emails]
    simp only [List.map_nil, List.nil_append]
    exact List.mem_map.mpr ⟨r, List.mem_filter.mpr ⟨hr, by simp [htr, okB]⟩, rfl⟩
  cases campaignId with
  | none =>
    rw [sendBulkEmails_none_eq] at h
    simp only [Except.ok.injEq, Prod.mk.injEq] at h
    obtain ⟨hres, hst⟩ := h
    subst hres
    subst hst
    exact ⟨hmem st, bulkLoop_saves_record trans saveOk mkTid apiUrl creds tmpl
      none htrOn recipients [] [] st 0 r hr info htr hsave⟩
  | some cid =>
    have hdup := sendBulkEmails_some_fresh trans saveOk mkTid apiUrl creds recipients
      tmpl cid st now res st' h
    rw [sendBulkEmails_some_eq trans saveOk mkTid apiUrl creds recipients tmpl cid
      st now hdup] at h
    simp only [Except.ok.injEq, Prod.mk.injEq] at h
    obtain ⟨hres, hst⟩ := h
    subst hres
    subst hst
    exact ⟨hmem _, bulkLoop_saves_record trans saveOk mkTid apiUrl creds tmpl
      (some cid) htrOn recipients [] [] _ 0 r hr info htr hsave⟩

/-- Witness for the amended C5 on the concrete one-recipient batch with
tracking enabled: the recipient lands in `successful` and a delivered row
for it is in the store. -/
theorem c5_success_persists_delivered_amended_witness :
    recipientEmail w2r ∈ w2res.successfulRecipients.map SuccessEntry.email ∧
    ∃ row ∈ w2st.emails, row.status = EmailStatus.delivered ∧
      row.messageId = "m-a@x" ∧ row.sender = w2creds.email ∧
      row.recipient = recipientEmail w2r ∧
      row.subject = replacePlaceholders w2tmpl.subject w2r ∧
      row.templateId = w2tmpl.templateId ∧ row.campaignId = none ∧
      row.trackingId.isSome = true :=
  c5_success_persists_delivered_amended w2trans w2saveOk w2tid "u" w2creds [w2r]
    w2tmpl none initState 0 w2res w2st (by rfl) w2r (by decide)
    { messageId := "m-a@x", envelope := "env", response := "resp" }
    (by rfl) (by decide) (by decide)

/-- C6: a persistence failure while saving the EmailRecord of a delivered
message is swallowed: `sendEmail` still resolves to the same success result
(message id, tracking id, envelope, response) with the store untouched, and
a bulk dispatch's result — totals and both recipient lists — is entirely
independent of which bookkeeping inserts fail, so every delivered recipient
is still counted successful and no error reaches the dispatch caller. -/
theorem c6_persistence_failure_swallowed (info : SendInfo) (apiUrl : String)
    (creds : Credentials) (o : EmailOptions) (tid : String) (st : DBState)
    (trans : String → Except String SendInfo) (saveOk1 saveOk2 : String → Bool)
    (mkTid : Nat → String) (recipients : List Recipient) (tmpl : BulkTemplate)
    (campaignId : Option String) (stB : DBState) (now : Nat) :
    sendEmail (.ok info) false apiUrl creds o tid st =
      .ok ({ messageId := info.messageId,
             trackingId := (computeTracking o tid apiUrl).1,
             envelope := info.envelope, response := info.response }, st) ∧
    (sendBulkEmails trans saveOk1 mkTid apiUrl creds recipients tmpl campaignId
        stB now).map Prod.fst =
      (sendBulkEmails trans saveOk2 mkTid apiUrl creds recipients tmpl campaignId
        stB now).map Prod.fst := by
  constructor
  · cases hct : (computeTracking o tid apiUrl).1 with
    | none => rw [sendEmail_ok_eq, hct]
    | some t =>
      rw [sendEmail_ok_eq, hct]
      simp [saveEmailToDB]
  · have hres := bulkLoop_res_indep trans saveOk1 saveOk2 mkTid apiUrl creds tmpl
      campaignId recipients [] []
    cases campaignId with
    | none =>
      rw [sendBulkEmails_none_eq, sendBulkEmails_none_eq]
      obtain ⟨h1, h2⟩ := hres stB stB 0
      show Except.ok _ = Except.ok _
      rw [h1, h2]
    | some cid =>
      cases hdup : stB.campaigns.any (fun c => c.id = cid) with
      | true => simp [sendBulkEmails, hdup]
      | false =>
        rw [sendBulkEmails_some_eq trans saveOk1 mkTid apiUrl creds recipients
          tmpl cid stB now hdup,
          sendBulkEmails_some_eq trans saveOk2 mkTid apiUrl creds recipients
          tmpl cid stB now hdup]
        obtain ⟨h1, h2⟩ := hres
          { stB with campaigns := stB.campaigns ++ [freshCampaign creds tmpl recipients cid] }
          { stB with campaigns := stB.campaigns ++ [freshCampaign creds tmpl recipients cid] } 0
        show Except.ok _ = Except.ok _
        rw [h1, h2]

/-- Witness for C6: a concrete delivered send whose bookkeeping insert
fails still resolves with its message id and leaves the store unchanged,
and the concrete one-recipient bulk result is the same whether every save
succeeds or every save fails. -/
theorem c6_persistence_failure_swallowed_witness :
    sendEmail (.ok { messageId := "m", envelope := "e", response := "r" }) false "u"
        w2creds { toAddr := "a@x", cc := none, bcc := none, subject := "S",
                  text := some "T", html := none, attachments := none,
                  enableTracking := none, templateId := none, campaignId := none,
                  fromAddr := none } "tX" initState =
      .ok ({ messageId := "m",
             trackingId := (computeTracking
               { toAddr := "a@x", cc := none, bcc := none, subject := "S",
                 text := some "T", html := none, attachments := none,
                 enableTracking := none, templateId := none, campaignId := none,
                 fromAddr := none } "tX" "u").1,
             envelope := "e", response := "r" }, initState) ∧
    (sendBulkEmails w2trans w2saveOk w2tid "u" w2creds [w2r] w2tmpl none initState
        0).map Prod.fst =
      (sendBulkEmails w2trans (fun _ => false) w2tid "u" w2creds [w2r] w2tmpl none
        initState 0).map Prod.fst :=
  c6_persistence_failure_swallowed { messageId := "m", envelope := "e", response := "r" }
    "u" w2creds
    { toAddr := "a@x", cc := none, bcc := none, subject := "S", text := some "T",
      html := none, attachments := none, enableTracking := none, templateId := none,
      campaignId := none, fromAddr := none } "tX" initState
    w2trans w2saveOk (fun _ => false) w2tid [w2r] w2tmpl none initState 0

lemma empty_string_append (s : String) : "" ++ s = s := by
  cases s with
  | mk data => show String.mk ([] ++ data) = String.mk data; rw [List.nil_append]

/-- C10: tracking is on by default — whenever `enableTracking` is anything
but `false`, a tracking id is minted, the pixel markup is a suffix of the
HTML body actually built (synthesized from the text body when no HTML body
is present), and a delivered `sendEmail` resolves with that non-null
tracking id; with `enableTracking = false` the resolved tracking id is
`null` and no EmailRecord is persisted for the send. -/
theorem c10_tracking_default_on (o : EmailOptions) (tid apiUrl : String)
    (info : SendInfo) (saveOkB : Bool) (creds : Credentials) (st : DBState) :
    (o.enableTracking ≠ some false →
      (computeTracking o tid apiUrl).1 = some tid ∧
      (∃ pre : String,
        (computeTracking o tid apiUrl).2 = pre ++ trackingPixelHtml apiUrl tid) ∧
      ((o.html).getD "" = "" → strTruthy o.text = true →
        (computeTracking o tid apiUrl).2 =
          "<div>" ++ newlineToBr ((o.text).getD "") ++ "</div>" ++
            trackingPixelHtml apiUrl tid) ∧
      (∃ st1 : DBState, sendEmail (.ok info) saveOkB apiUrl creds o tid st =
        .ok ({ messageId := info.messageId, trackingId := some tid,
               envelope := info.envelope, response := info.response }, st1))) ∧
    (o.enableTracking = some false →
      sendEmail (.ok info) saveOkB apiUrl creds o tid st =
        .ok ({ messageId := info.messageId, trackingId := none,
               envelope := info.envelope, response := info.response }, st)) := by
  constructor
  · intro hOn
    have hct : (computeTracking o tid apiUrl).1 = some tid := by
      simp [computeTracking, hOn]
    refine ⟨hct, ?_, ?_, ?_⟩
    · simp only [computeTracking, if_pos hOn]
      split_ifs with h1 h2
      · exact ⟨(o.html).getD "", rfl⟩
      · exact ⟨"<div>" ++ newlineToBr ((o.text).getD "") ++ "</div>", rfl⟩
      · exact ⟨"", (empty_string_append _).symm⟩
    · intro hhtml htext
      have h1 : ((o.html).getD "").isEmpty = true := by
        rw [hhtml]; rfl
      simp [computeTracking, hOn, h1, htext]
    · refine ⟨saveEmailToDB st
        { messageId := info.messageId, sender := orElseStr o.fromAddr creds.email,
          recipient := o.toAddr, subject := o.subject, trackingId := some tid,
          status := EmailStatus.delivered, templateId := o.templateId,
          campaignId := o.campaignId, openedAt := none } saveOkB, ?_⟩
      rw [sendEmail_ok_eq, hct]
  · intro hOff
    have hct : (computeTracking o tid apiUrl).1 = none := by
      simp [computeTracking, hOff]
    rw [sendEmail_ok_eq, hct]

/-- The concrete options of the C10 witness: tracking left undefined, no
HTML body, a text body. -/
def c10o : EmailOptions :=
  { toAddr := "a@x", cc := none, bcc := none, subject := "S", text := some "T",
    html := none, attachments := none, enableTracking := none, templateId := none,
    campaignId := none, fromAddr := none }

/-- The C10 options with tracking explicitly disabled. -/
def c10off : EmailOptions := { c10o with enableTracking := some false }

/-- Witness for C10: with tracking undefined a tracking id is minted, the
built HTML is the synthesized text body with the pixel appended, and the
send resolves with that id; with tracking `false` the send resolves with a
null tracking id and an unchanged store. -/
theorem c10_tracking_default_on_witness :
    (computeTracking c10o "tX" "u").1 = some "tX" ∧
    (computeTracking c10o "tX" "u").2 =
      "<div>" ++ newlineToBr "T" ++ "</div>" ++ trackingPixelHtml "u" "tX" ∧
    (∃ st1 : DBState,
      sendEmail (.ok { messageId := "m", envelope := "e", response := "r" }) true "u"
          w2creds c10o "tX" initState =
        .ok ({ messageId := "m", trackingId := some "tX", envelope := "e",
               response := "r" }, st1)) ∧
    sendEmail (.ok { messageId := "m", envelope := "e", response := "r" }) true "u"
        w2creds c10off "tX" initState =
      .ok ({ messageId := "m", trackingId := none, envelope := "e",
             response := "r" }, initState) := by
  have hOn := (c10_tracking_default_on c10o "tX" "u"
    { messageId := "m", envelope := "e", response := "r" } true w2creds initState).1
    (by decide)
  have hOff := (c10_tracking_default_on c10off "tX" "u"
    { messageId := "m", envelope := "e", response := "r" } true w2creds initState).2
    (by decide)
  exact ⟨hOn.1, hOn.2.2.1 (by decide) (by decide), hOn.2.2.2, hOff⟩

/-! ### Reachability invariants -/

/-- Forward order on campaign statuses: draft before in_progress before
completed. -/
def statusRank : CampaignStatus → Nat
  | .draft => 0
  | .in_progress => 1
  | .completed => 2

/-- Every campaign row's counts stay within its recipient total. -/
def campaignCountInv (st : DBState) : Prop :=
  ∀ c ∈ st.campaigns, c.sentCount + c.failedCount ≤ c.totalRecipients

lemma step_campaignCountInv (stA stB : DBState) (hstep : Step stA stB)
    (hinv : campaignCountInv stA) : campaignCountInv stB := by
  cases hstep with
  | track stC t ip ua now =>
    intro c hc
    rw [updateEmailTracking_campaigns] at hc
    exact hinv c hc
  | single attempt saveOk apiUrl creds o tid stC res stD h =>
    intro c hc
    rw [(sendEmail_ok_state attempt saveOk apiUrl creds o tid stA res stB h).1] at hc
    exact hinv c hc
  | bulk trans saveOk mkTid apiUrl creds recipients tmpl campaignId stC now res stD h =>
    cases campaignId with
    | none =>
      rw [sendBulkEmails_none_eq] at h
      simp only [Except.ok.injEq, Prod.mk.injEq] at h
      obtain ⟨-, hst⟩ := h
      subst hst
      intro c hc
      rw [(bulkLoop_campaigns_events trans saveOk mkTid apiUrl creds tmpl none
        recipients [] [] stA 0).1] at hc
      exact hinv c hc
    | some cid =>
      have hdup := sendBulkEmails_some_fresh trans saveOk mkTid apiUrl creds
        recipients tmpl cid stA now res stB h
      rw [sendBulkEmails_some_eq trans saveOk mkTid apiUrl creds recipients tmpl
        cid stA now hdup] at h
      simp only [Except.ok.injEq, Prod.mk.injEq] at h
      obtain ⟨-, hst⟩ := h
      subst hst
      intro c hc
      simp only [campaignClose,
        (bulkLoop_campaigns_events trans saveOk mkTid apiUrl creds tmpl (some cid)
          recipients [] [] { stA with campaigns :=
            stA.campaigns ++ [freshCampaign creds tmpl recipients cid] } 0).1,
        List.map_append, List.mem_append] at hc
      simp only [List.any_eq_false] at hdup
      rcases hc with hc | hc
      · obtain ⟨c0, hc0, rfl⟩ := List.mem_map.mp hc
        have hne := hdup c0 hc0
        simp at hne
        simp only [hne, if_false]
        exact hinv c0 hc0
      · simp only [List.map_cons, List.map_nil, List.mem_singleton] at hc
        subst hc
        have hlen := bulkLoop_lengths trans saveOk mkTid apiUrl creds tmpl (some cid)
          recipients [] [] { stA with campaigns :=
            stA.campaigns ++ [freshCampaign creds tmpl recipients cid] } 0
        simp only [List.length_nil, Nat.zero_add] at hlen
        have hid : (freshCampaign creds tmpl recipients cid).id = cid := rfl
        rw [if_pos hid]
        exact le_of_eq hlen

lemma step_status_monotone (stA stB : DBState) (hstep : Step stA stB) :
    ∀ (i : Nat) (c c' : Campaign), stA.campaigns[i]? = some c →
      stB.campaigns[i]? = some c' → statusRank c.status ≤ statusRank c'.status := by
  cases hstep with
  | track stC t ip ua now =>
    intro i c c' hc hc'
    rw [updateEmailTracking_campaigns, hc, Option.some.injEq] at hc'
    rw [hc']
  | single attempt saveOk apiUrl creds o tid stC res stD h =>
    intro i c c' hc hc'
    rw [(sendEmail_ok_state attempt saveOk apiUrl creds o tid stA res stB h).1,
      hc, Option.some.injEq] at hc'
    rw [hc']
  | bulk trans saveOk mkTid apiUrl creds recipients tmpl campaignId stC now res stD h =>
    cases campaignId with
    | none =>
      rw [sendBulkEmails_none_eq] at h
      simp only [Except.ok.injEq, Prod.mk.injEq] at h
      obtain ⟨-, hst⟩ := h
      subst hst
      intro i c c' hc hc'
      rw [(bulkLoop_campaigns_events trans saveOk mkTid apiUrl creds tmpl none
        recipients [] [] stA 0).1, hc, Option.some.injEq] at hc'
      rw [hc']
    | some cid =>
      have hdup := sendBulkEmails_some_fresh trans saveOk mkTid apiUrl creds
        recipients tmpl cid stA now res stB h
      rw [sendBulkEmails_some_eq trans saveOk mkTid apiUrl creds recipients tmpl
        cid stA now hdup] at h
      simp only [Except.ok.injEq, Prod.mk.injEq] at h
      obtain ⟨-, hst⟩ := h
      subst hst
      intro i c c' hc hc'
      simp only [campaignClose,
        (bulkLoop_campaigns_events trans saveOk mkTid apiUrl creds tmpl (some cid)
          recipients [] [] { stA with campaigns :=
            stA.campaigns ++ [freshCampaign creds tmpl recipients cid] } 0).1,
        List.getElem?_map] at hc'
      have hi : i < stA.campaigns.length := by
        by_contra hge
        rw [List.getElem?_eq_none (by omega)] at hc
        exact Option.noConfusion hc
      rw [List.getElem?_append_left hi, hc] at hc'
      simp only [Option.map_some', Option.some.injEq] at hc'
      simp only [List.any_eq_false] at hdup
      have hcm : c ∈ stA.campaigns := List.getElem?_mem hc
      have hne := hdup c hcm
      simp at hne
      rw [← hc', if_neg (by simpa using hne)]

/-- Every email row a step can leave in the store avoids status `failed`. -/
def noFailedRow (st : DBState) : Prop :=
  ∀ e ∈ st.emails, e.status ≠ EmailStatus.failed

lemma step_noFailedRow (stA stB : DBState) (hstep : Step stA stB)
    (hinv : noFailedRow stA) : noFailedRow stB := by
  have hdelivered : ∀ row : EmailRecord, row.status = EmailStatus.delivered →
      row.status ≠ EmailStatus.failed := by
    intro row hrow
    rw [hrow]
    simp
  cases hstep with
  | track stC t ip ua now =>
    intro e he
    rw [updateEmailTracking_emails] at he
    obtain ⟨e0, he0, rfl⟩ := List.mem_map.mp he
    by_cases hcond : e0.trackingId = some t ∧ e0.status = EmailStatus.delivered
    · simp [openRow, hcond]
    · simp only [openRow, if_neg hcond]
      exact hinv e0 he0
  | single attempt saveOk apiUrl creds o tid stC res stD h =>
    intro e he
    rcases (sendEmail_ok_state attempt saveOk apiUrl creds o tid stA res stB h).2.2 with
      heq | ⟨row, heq, hrow⟩
    · rw [heq] at he
      exact hinv e he
    · rw [heq] at he
      rcases List.mem_append.mp he with hl | hr
      · exact hinv e hl
      · rw [List.mem_singleton.mp hr]
        exact hdelivered row hrow
  | bulk trans saveOk mkTid apiUrl creds recipients tmpl campaignId stC now res stD h =>
    cases campaignId with
    | none =>
      rw [sendBulkEmails_none_eq] at h
      simp only [Except.ok.injEq, Prod.mk.injEq] at h
      obtain ⟨-, hst⟩ := h
      subst hst
      exact bulkLoop_emails_pres trans saveOk mkTid apiUrl creds tmpl none
        (fun e => e.status ≠ EmailStatus.failed) hdelivered recipients [] [] stA 0 hinv
    | some cid =>
      have hdup := sendBulkEmails_some_fresh trans saveOk mkTid apiUrl creds
        recipients tmpl cid stA now res stB h
      rw [sendBulkEmails_some_eq trans saveOk mkTid apiUrl creds recipients tmpl
        cid stA now hdup] at h
      simp only [Except.ok.injEq, Prod.mk.injEq] at h
      obtain ⟨-, hst⟩ := h
      subst hst
      intro e he
      exact bulkLoop_emails_pres trans saveOk mkTid apiUrl creds tmpl (some cid)
        (fun e => e.status ≠ EmailStatus.failed) hdelivered recipients [] []
        { stA with campaigns := stA.campaigns ++ [freshCampaign creds tmpl recipients cid] }
        0 hinv e he

/-- C8: in every store reachable from the empty database through the
engine's operations, each campaign row satisfies
`sentCount + failedCount ≤ totalRecipients`; and across any single engine
step, a campaign row's status only moves forward along
draft → in_progress → completed, never regressing. -/
theorem c8_campaign_count_and_status_monotone (st stA stB : DBState)
    (hr : Reachable st) (hstep : Step stA stB) :
    (∀ c ∈ st.campaigns, c.sentCount + c.failedCount ≤ c.totalRecipients) ∧
    (∀ (i : Nat) (c c' : Campaign), stA.campaigns[i]? = some c →
      stB.campaigns[i]? = some c' →
      statusRank c.status ≤ statusRank c'.status) := by
  constructor
  · have hr' : Relation.ReflTransGen Step initState st := hr
    clear hr
    have hinv : campaignCountInv st := by
      induction hr' with
      | refl => intro c hc; simp [initState] at hc
      | tail hab hbc ih => exact step_campaignCountInv _ _ hbc ih
    exact hinv
  · exact step_status_monotone stA stB hstep

/-- Witness for C8 at the empty store and one concrete tracking step. -/
theorem c8_campaign_count_and_status_monotone_witness :
    (∀ c ∈ initState.campaigns, c.sentCount + c.failedCount ≤ c.totalRecipients) ∧
    (∀ (i : Nat) (c c' : Campaign), initState.campaigns[i]? = some c →
      (updateEmailTracking initState "t" "ip" "ua" 0).1.campaigns[i]? = some c' →
      statusRank c.status ≤ statusRank c'.status) :=
  c8_campaign_count_and_status_monotone initState initState
    (updateEmailTracking initState "t" "ip" "ua" 0).1
    Relation.ReflTransGen.refl (Step.track initState "t" "ip" "ua" 0)

/-- C9: the dispatcher persists no EmailRecord for a failed send, so in
every reachable store no email row has status `failed`, and the stats
query's failed count is 0 for every campaign. -/
theorem c9_no_failed_rows_stats_zero (st : DBState) (cid : String)
    (hr : Reachable st) :
    (∀ e ∈ st.emails, e.status ≠ EmailStatus.failed) ∧
    (∀ s : CampaignStatsObj, getCampaignStats st cid = .ok s →
      s.failedCount = 0) := by
  have hr' : Relation.ReflTransGen Step initState st := hr
  clear hr
  have hinv : noFailedRow st := by
    induction hr' with
    | refl => intro e he; simp [initState] at he
    | tail hab hbc ih => exact step_noFailedRow _ _ hbc ih
  refine ⟨hinv, ?_⟩
  intro s hs
  unfold getCampaignStats at hs
  cases hfind : st.campaigns.find? (fun c => c.id = cid) with
  | none =>
    rw [hfind] at hs
    exact absurd hs (by simp)
  | some c =>
    rw [hfind] at hs
    simp only [Except.ok.injEq] at hs
    subst hs
    show ((st.emails.filter (fun e => e.campaignId = some cid)).filter
        (fun e => e.status = EmailStatus.failed)).length = 0
    rw [List.length_eq_zero, List.filter_eq_nil_iff]
    intro e he
    have he' : e ∈ st.emails := (List.mem_filter.mp he).1
    have hne := hinv e he'
    simp [hne]

/-- Witness for C9 at the empty store. -/
theorem c9_no_failed_rows_stats_zero_witness :
    (∀ e ∈ initState.emails, e.status ≠ EmailStatus.failed) ∧
    (∀ s : CampaignStatsObj, getCampaignStats initState "camp" = .ok s →
      s.failedCount = 0) :=
  c9_no_failed_rows_stats_zero initState "camp" Relation.ReflTransGen.refl

end GmailServer
